import Mathlib

/-!
Verification of the BLE beacon reader core (advertisement decoder, filter engine,
session recorder) against its design specification.

The TypeScript sources are embedded shallowly:
pure functions (`BleService.parseIBeaconData`, `BleService.bytesToUUID`, the
UUID/RSSI guard of `BleService.handlePeripheralDiscovered`, `isValidUUID` from
`uuidUtils.ts`) become Lean functions on `List Nat` byte sequences and `String`s;
the stateful parts (`StorageService`, the `ScanningScreen` session lifecycle)
become explicit state passing over a `Storage` / `AppState` record, with a
Boolean success flag per underlying `AsyncStorage` call so that persistence
failures can be reasoned about.  JavaScript strings appearing here are ASCII,
so `toLowerCase` / `toUpperCase` / `trim` are modelled character-wise.
-/

namespace BleBeacon

/-! ### Data model (`src/types/index.ts`) -/

/-- `Settings` from `src/types/index.ts`: the filter criteria. -/
structure Settings where
  targetUuid : String
  rssiThreshold : Int
deriving Repr, DecidableEq

/-- Decoder output of `BleService.parseIBeaconData` (the object literal returned
on success, rssi attached from the peripheral). -/
structure BeaconAdvertisement where
  uuid : String
  major : Nat
  minor : Nat
  rssi : Int
deriving Repr, DecidableEq

/-- `BeaconRead` from `src/types/index.ts`. -/
structure BeaconRead where
  id : String
  uuid : String
  major : Nat
  minor : Nat
  rssi : Int
  timestamp : Nat
deriving Repr, DecidableEq

/-- `Session` from `src/types/index.ts`. -/
structure Session where
  id : String
  name : String
  startTime : Nat
  endTime : Option Nat
  beaconReads : List BeaconRead
deriving Repr, DecidableEq

/-! ### ASCII string helpers

The JavaScript string methods used by the sources (`toLowerCase`, `toUpperCase`
via `Char.toUpper`, `trim`) modelled character-wise over the string data. -/

/-- JavaScript `String.prototype.toLowerCase` on the ASCII strings involved. -/
def toLowerCase (s : String) : String :=
  String.mk (s.data.map Char.toLower)

/-- Whitespace recognised by JavaScript `String.prototype.trim` (ASCII part). -/
def isTrimWhitespace (c : Char) : Bool :=
  c == ' ' || c == '\t' || c == '\n' || c == '\r'

/-- JavaScript `String.prototype.trim`: strip leading and trailing whitespace. -/
def trimString (s : String) : String :=
  String.mk (((s.data.dropWhile isTrimWhitespace).reverse.dropWhile isTrimWhitespace).reverse)

/-! ### Advertisement decoder (`BleService.parseIBeaconData`, `BleService.bytesToUUID`) -/

/-- Lowercase hexadecimal digit for a nibble value, as produced by JavaScript
`Number.prototype.toString(16)`. -/
def hexDigitLower (n : Nat) : Char :=
  if n < 10 then Char.ofNat (48 + n) else Char.ofNat (87 + n)

/-- Two-character lowercase hexadecimal rendering of a byte value: the source's
`b.toString(16).padStart(2, '0')` inside `BleService.bytesToUUID`, which for
byte values `b < 256` yields exactly the two nibble digits. -/
def byteToHexLower (b : Nat) : List Char :=
  [hexDigitLower (b / 16 % 16), hexDigitLower (b % 16)]

/-- `BleService.bytesToUUID`: hex-encode the bytes, cut the hex string at
offsets 8, 12, 16, 20, 32, join the five groups with dashes, and uppercase
the result. -/
def bytesToUUID (bytes : List Nat) : String :=
  let hex := (bytes.map byteToHexLower).flatten
  let groups := [hex.take 8, (hex.drop 8).take 4, (hex.drop 12).take 4,
    (hex.drop 16).take 4, (hex.drop 20).take 12]
  String.mk (((List.intersperse [ '-' ] groups).flatten).map Char.toUpper)

/-- `BleService.parseIBeaconData`: reject sequences shorter than 25 bytes,
require the Apple company identifier `4C 00` in bytes 0-1 and the iBeacon
type marker `02 15` in bytes 2-3, then extract the UUID from bytes 4-19,
big-endian `major` from bytes 20-21 and `minor` from bytes 22-23, and attach
the caller's rssi unchanged.  A missing `manufacturerData` field corresponds
to the empty byte sequence. -/
def parseIBeaconData (manufacturerData : List Nat) (rssi : Int) :
    Option BeaconAdvertisement :=
  if manufacturerData.length < 25 then none
  else if manufacturerData.getD 0 0 ≠ 0x4C ∨ manufacturerData.getD 1 0 ≠ 0x00 then none
  else if manufacturerData.getD 2 0 ≠ 0x02 ∨ manufacturerData.getD 3 0 ≠ 0x15 then none
  else
    let uuidBytes := (manufacturerData.drop 4).take 16
    let uuid := bytesToUUID uuidBytes
    let major := manufacturerData.getD 20 0 <<< 8 ||| manufacturerData.getD 21 0
    let minor := manufacturerData.getD 22 0 <<< 8 ||| manufacturerData.getD 23 0
    some { uuid := uuid, major := major, minor := minor, rssi := rssi }

/-! ### Specification-side UUID rendering

Written from the specification's words, for comparison with `bytesToUUID`:
byte groups of sizes 4, 2, 2, 2, 6, each byte as two uppercase hexadecimal
digits, groups joined with dashes (8-4-4-4-12 hex digits). -/

/-- Uppercase hexadecimal digit for a nibble value. -/
def hexDigitUpper (n : Nat) : Char :=
  if n < 10 then Char.ofNat (48 + n) else Char.ofNat (55 + n)

/-- Two-character uppercase hexadecimal rendering of a byte value. -/
def byteToHexUpper (b : Nat) : List Char :=
  [hexDigitUpper (b / 16 % 16), hexDigitUpper (b % 16)]

/-- Modelled from the spec: the canonical 36-character hyphenated uppercase
rendering of a 16-byte UUID — byte groups of sizes 4, 2, 2, 2, 6, each byte as
two uppercase hex digits, joined with dashes. -/
def canonicalUUID (bytes : List Nat) : String :=
  let groups := [bytes.take 4, (bytes.drop 4).take 2, (bytes.drop 6).take 2,
    (bytes.drop 8).take 2, (bytes.drop 10).take 6]
  String.mk ((List.intersperse [ '-' ]
    (groups.map (fun g => (g.map byteToHexUpper).flatten))).flatten)

/-! ### Filter engine (`BleService.handlePeripheralDiscovered`, lines 102-114) -/

/-- The accept/reject decision of `BleService.handlePeripheralDiscovered`: the
observation proceeds to be recorded unless the lowercased UUIDs differ or the
rssi is below the threshold. -/
def filterAccepts (settings : Settings) (adv : BeaconAdvertisement) : Bool :=
  if toLowerCase adv.uuid ≠ toLowerCase settings.targetUuid then false
  else if adv.rssi < settings.rssiThreshold then false
  else true

/-! ### UUID validation (`src/utils/uuidUtils.ts`) -/

/-- Character class `[0-9A-F]` under the case-insensitive regex flag. -/
def isHexChar (c : Char) : Bool :=
  ( '0' ≤ c && c ≤ '9' ) || ( 'A' ≤ c && c ≤ 'F' ) || ( 'a' ≤ c && c ≤ 'f' )

/-- Split a character list at every dash, keeping empty groups. -/
def splitOnDash : List Char → List (List Char)
  | [] => [[]]
  | c :: cs =>
    if c = '-' then [] :: splitOnDash cs
    else
      match splitOnDash cs with
      | g :: gs => (c :: g) :: gs
      | [] => [[c]]

/-- `isValidUUID` from `src/utils/uuidUtils.ts`: the whole string matches five
dash-separated groups of 8, 4, 4, 4 and 12 hexadecimal digits, either case. -/
def isValidUUID (uuid : String) : Bool :=
  match splitOnDash uuid.data with
  | [g1, g2, g3, g4, g5] =>
    g1.length == 8 && g2.length == 4 && g3.length == 4 && g4.length == 4 &&
      g5.length == 12 && (g1 ++ g2 ++ g3 ++ g4 ++ g5).all isHexChar
  | _ => false

/-! ### Persistence boundary (`StorageService`)

The decoded contents of the AsyncStorage keys `ble_beacon_sessions` and
`ble_beacon_current_session`.  Each operation carries a Boolean success flag
for its underlying `AsyncStorage` call: a failed call changes nothing and the
operation reports the failure (`Except.error`). -/

/-- The persisted state: the saved-sessions collection and the "current"
(in-progress) session marker. -/
structure Storage where
  sessions : List Session
  currentSession : Option Session
deriving Repr, DecidableEq

/-- Replace the first session with the same id, else append — the
`findIndex` / assign-or-push logic of `StorageService.saveSession`. -/
def upsertById (session : Session) : List Session → List Session
  | [] => [session]
  | t :: ts => if t.id = session.id then session :: ts else t :: upsertById session ts

/-- `StorageService.saveSession` on the storage state. -/
def saveSessionStore (ok : Bool) (session : Session) (st : Storage) :
    Except Unit Storage :=
  if ok then .ok { st with sessions := upsertById session st.sessions } else .error ()

/-- `StorageService.saveCurrentSession`: set or clear the current-session
marker. -/
def saveCurrentSession (ok : Bool) (s : Option Session) (st : Storage) :
    Except Unit Storage :=
  if ok then .ok { st with currentSession := s } else .error ()

/-- `StorageService.addBeaconReadToCurrentSession`: load the current session,
append the read, save it back; a no-op success when no current session
exists. -/
def addBeaconReadToCurrentSession (ok : Bool) (read : BeaconRead) (st : Storage) :
    Except Unit Storage :=
  match st.currentSession with
  | none => .ok st
  | some s =>
    saveCurrentSession ok (some { s with beaconReads := s.beaconReads ++ [read] }) st

/-! ### Session recorder (`ScanningScreen` of the scanning screen source)

The screen's React state (`currentSession`, `beaconReads`) next to the
persisted state. -/

/-- The ScanningScreen React state that the session lifecycle reads and
writes. -/
structure ScreenState where
  currentSession : Option Session
  beaconReads : List BeaconRead
deriving Repr, DecidableEq

/-- In-memory screen state plus persisted storage. -/
structure AppState where
  screen : ScreenState
  storage : Storage
deriving Repr, DecidableEq

/-- The session created by `ScanningScreen.startScanning`; the
locale-formatted default name and the `Date.now()` id suffix are modelled by
the numeric timestamp rendering. -/
def newSession (now : Nat) : Session :=
  { id := "session_" ++ toString now
  , name := "Session " ++ toString now
  , startTime := now
  , endTime := none
  , beaconReads := [] }

/-- Session-management part of `ScanningScreen.startScanning`: when no session
is active, create one, update the React state, then await persistence of the
new current session.  The React state is set before the persistence call; a
persistence failure is caught by the surrounding try/catch after the React
state was already updated. -/
def startScanning (ok : Bool) (now : Nat) (app : AppState) : AppState :=
  match app.screen.currentSession with
  | some _ => app
  | none =>
    let s := newSession now
    let screen1 := { app.screen with currentSession := some s }
    match saveCurrentSession ok (some s) app.storage with
    | .ok st1 => { screen := screen1, storage := st1 }
    | .error _ => { screen := screen1, storage := app.storage }

/-- Recording one accepted read: `BleService.handlePeripheralDiscovered`
stores the read via `StorageService.addBeaconReadToCurrentSession` and only
then invokes the screen callback that prepends it to the displayed list; a
storage failure is caught before the callback runs, so no in-memory change
happens on failure. -/
def recordRead (ok : Bool) (read : BeaconRead) (app : AppState) : AppState :=
  match addBeaconReadToCurrentSession ok read app.storage with
  | .ok st1 =>
    { screen := { app.screen with beaconReads := read :: app.screen.beaconReads }
    , storage := st1 }
  | .error _ => app

/-- Outcome reported by `ScanningScreen.saveSession` (alerts in the source). -/
inductive SaveResult where
  | saved
  | emptyNameError
  | noSessionError
  | persistenceError
deriving Repr, DecidableEq

/-- `ScanningScreen.saveSession`: reject a blank name, reject when no session
is active, otherwise finalize the React-state session (trimmed name, `endTime`
now), upsert it into the saved collection, clear the current-session marker
and reset the React state.  `okSave` and `okClear` flag the two persistence
calls. -/
def saveSession (okSave okClear : Bool) (sessionName : String) (now : Nat)
    (app : AppState) : SaveResult × AppState :=
  if trimString sessionName = "" then (.emptyNameError, app)
  else
    match app.screen.currentSession with
    | none => (.noSessionError, app)
    | some cur =>
      let sessionToSave := { cur with name := trimString sessionName, endTime := some now }
      match saveSessionStore okSave sessionToSave app.storage with
      | .error _ => (.persistenceError, app)
      | .ok st1 =>
        match saveCurrentSession okClear none st1 with
        | .error _ => (.persistenceError, { app with storage := st1 })
        | .ok st2 =>
          (.saved, { screen := { currentSession := none, beaconReads := [] }
                   , storage := st2 })

/-- Confirm-handler of `ScanningScreen.clearCurrentSession` (discard): clear
the persisted marker, then reset the React state; a failure is caught before
any React-state change. -/
def clearCurrentSession (ok : Bool) (app : AppState) : AppState :=
  match saveCurrentSession ok none app.storage with
  | .ok st1 => { screen := { currentSession := none, beaconReads := [] }, storage := st1 }
  | .error _ => app

/-! ### Settings loading (`StorageService.getSettings`) -/

/-- The default settings literal of `StorageService.getSettings`. -/
def defaultSettings : Settings :=
  { targetUuid := "E101B392ADA32224231605EF58774925", rssiThreshold := -70 }

/-- `StorageService.getSettings`: the stored settings when present, the
defaults otherwise (the stored JSON value is modelled as an already decoded
optional `Settings`; the error path of the source also returns the
defaults). -/
def getSettings (stored : Option Settings) : Settings :=
  match stored with
  | some s => s
  | none => defaultSettings

/-! ### The two phases of a `record` call, for interleaving analysis

`StorageService.addBeaconReadToCurrentSession` awaits its
`getCurrentSession` load before the append-and-save; a concurrent call can
run between the two phases. -/

/-- First phase: the awaited `getCurrentSession` snapshot. -/
def beaconReadLoad (st : Storage) : Option Session :=
  st.currentSession

/-- Second phase: append the read to the snapshot and save it back. -/
def beaconReadStore (snapshot : Option Session) (read : BeaconRead) (st : Storage) :
    Storage :=
  match snapshot with
  | none => st
  | some s => { st with currentSession := some { s with beaconReads := s.beaconReads ++ [read] } }

/-- A serialized `record`: the two phases run back to back with no
interleaving. -/
def recordSerialized (read : BeaconRead) (st : Storage) : Storage :=
  beaconReadStore (beaconReadLoad st) read st

/-- Serialized `record` calls, in arrival order. -/
def recordAllSerialized (reads : List BeaconRead) (st : Storage) : Storage :=
  reads.foldl (fun s r => recordSerialized r s) st

/-- The lost-update interleaving of two concurrent `record` calls: both loads
run before either store. -/
def recordTwoInterleaved (r1 r2 : BeaconRead) (st : Storage) : Storage :=
  let snap1 := beaconReadLoad st
  let snap2 := beaconReadLoad st
  beaconReadStore snap2 r2 (beaconReadStore snap1 r1 st)

/-! ### Concrete fixtures -/

/-- The fixture frame of the specification:
`4C 00 02 15`, the sixteen UUID bytes `E1 01 B3 92 AD A3 22 24 23 16 05 EF 58
77 49 25`, major `00 07`, minor `00 09`, tx power `C5`. -/
def fixtureData : List Nat :=
  [0x4C, 0x00, 0x02, 0x15,
   0xE1, 0x01, 0xB3, 0x92, 0xAD, 0xA3, 0x22, 0x24,
   0x23, 0x16, 0x05, 0xEF, 0x58, 0x77, 0x49, 0x25,
   0x00, 0x07, 0x00, 0x09, 0xC5]

/-- A concrete accepted read used by the session-lifecycle statements. -/
def fixtureRead : BeaconRead :=
  { id := "read_6"
  , uuid := "E101B392-ADA3-2224-2316-05EF58774925"
  , major := 7
  , minor := 9
  , rssi := -50
  , timestamp := 6 }

/-- A fresh application state: nothing in memory, nothing persisted. -/
def freshApp : AppState :=
  { screen := { currentSession := none, beaconReads := [] }
  , storage := { sessions := [], currentSession := none } }

/-- Start at time 5, record one accepted read, save under the name `x` at
time 9, with every persistence call succeeding. -/
def saveRunApp : AppState :=
  (saveSession true true "x" 9 (recordRead true fixtureRead (startScanning true 5 freshApp))).2

/-! ### Helper lemmas -/

/-- Uppercasing a lowercase nibble digit gives the uppercase nibble digit. -/
theorem toUpper_hexDigitLower : ∀ m, m < 16 →
    Char.toUpper (hexDigitLower m) = hexDigitUpper m := by decide

/-- Uppercasing the lowercase hex pair of a byte gives the uppercase pair. -/
theorem map_toUpper_byteToHexLower (b : Nat) :
    (byteToHexLower b).map Char.toUpper = byteToHexUpper b := by
  simp only [byteToHexLower, byteToHexUpper, List.map_cons, List.map_nil]
  rw [toUpper_hexDigitLower _ (Nat.mod_lt _ (by norm_num)),
    toUpper_hexDigitLower _ (Nat.mod_lt _ (by norm_num))]

/-- Taking an even number of characters from the flattened hex pairs is taking
the corresponding bytes first. -/
theorem flatten_byteToHexLower_take (l : List Nat) (k : Nat) :
    ((l.map byteToHexLower).flatten).take (2 * k) =
      ((l.take k).map byteToHexLower).flatten := by
  induction l generalizing k with
  | nil => simp
  | cons a t ih =>
    cases k with
    | zero => simp
    | succ n =>
      have h : 2 * (n + 1) = 2 * n + 1 + 1 := by omega
      simp only [List.map_cons, List.flatten_cons, byteToHexLower, List.cons_append,
        List.nil_append, h, List.take_succ_cons]
      rw [ih]

/-- Dropping an even number of characters from the flattened hex pairs is
dropping the corresponding bytes first. -/
theorem flatten_byteToHexLower_drop (l : List Nat) (k : Nat) :
    ((l.map byteToHexLower).flatten).drop (2 * k) =
      ((l.drop k).map byteToHexLower).flatten := by
  induction l generalizing k with
  | nil => simp
  | cons a t ih =>
    cases k with
    | zero => simp
    | succ n =>
      have h : 2 * (n + 1) = 2 * n + 1 + 1 := by omega
      simp only [List.map_cons, List.flatten_cons, byteToHexLower, List.cons_append,
        List.nil_append, h, List.drop_succ_cons]
      rw [ih]

/-- Uppercasing the flattened lowercase hex pairs gives the flattened
uppercase pairs. -/
theorem map_toUpper_flatten (l : List Nat) :
    (((l.map byteToHexLower).flatten).map Char.toUpper) =
      (l.map byteToHexUpper).flatten := by
  rw [List.map_flatten, List.map_map]
  exact congrArg List.flatten (List.map_congr_left fun b _ => map_toUpper_byteToHexLower b)

/-- Refinement of the decoder's UUID rendering against the specification's
canonical 8-4-4-4-12 uppercase hyphenated rendering: `bytesToUUID` of the
source agrees with `canonicalUUID` written from the spec, on every byte
sequence. -/
theorem bytesToUUID_eq_canonicalUUID (bytes : List Nat) :
    bytesToUUID bytes = canonicalUUID bytes := by
  have hdash : Char.toUpper '-' = '-' := by decide
  have htake : ∀ (l : List Nat) (k m : Nat), 2 * k = m →
      (((l.map byteToHexLower).flatten).take m).map Char.toUpper
        = ((l.take k).map byteToHexUpper).flatten := by
    intro l k m hm
    rw [← hm, flatten_byteToHexLower_take, map_toUpper_flatten]
  have hdrop : ∀ (l : List Nat) (k m : Nat), 2 * k = m →
      ((l.map byteToHexLower).flatten).drop m = ((l.drop k).map byteToHexLower).flatten := by
    intro l k m hm
    rw [← hm, flatten_byteToHexLower_drop]
  have t1 := htake bytes 4 8 (by norm_num)
  have t2 : (((((bytes.map byteToHexLower).flatten).drop 8).take 4).map Char.toUpper)
      = (((bytes.drop 4).take 2).map byteToHexUpper).flatten := by
    rw [hdrop bytes 4 8 (by norm_num), htake (bytes.drop 4) 2 4 (by norm_num)]
  have t3 : (((((bytes.map byteToHexLower).flatten).drop 12).take 4).map Char.toUpper)
      = (((bytes.drop 6).take 2).map byteToHexUpper).flatten := by
    rw [hdrop bytes 6 12 (by norm_num), htake (bytes.drop 6) 2 4 (by norm_num)]
  have t4 : (((((bytes.map byteToHexLower).flatten).drop 16).take 4).map Char.toUpper)
      = (((bytes.drop 8).take 2).map byteToHexUpper).flatten := by
    rw [hdrop bytes 8 16 (by norm_num), htake (bytes.drop 8) 2 4 (by norm_num)]
  have t5 : (((((bytes.map byteToHexLower).flatten).drop 20).take 12).map Char.toUpper)
      = (((bytes.drop 10).take 6).map byteToHexUpper).flatten := by
    rw [hdrop bytes 10 20 (by norm_num), htake (bytes.drop 10) 6 12 (by norm_num)]
  unfold bytesToUUID canonicalUUID
  simp only [List.intersperse, List.flatten_cons, List.flatten_nil, List.map_append,
    List.map_cons, List.map_nil, List.append_nil, hdash, t1, t2, t3, t4, t5]

/-- JavaScript `(hi << 8) | lo` equals the big-endian value `256 * hi + lo`
when `lo` is a byte. -/
theorem shiftLeft_or_eq_mul_add (x y : Nat) (hy : y < 256) :
    x <<< 8 ||| y = 256 * x + y := by
  have hy2 : y < 2 ^ 8 := by simpa using hy
  have h : x <<< 8 = 2 ^ 8 * x := by
    rw [Nat.shiftLeft_eq]; ring
  rw [h, ← Nat.mul_add_lt_is_or hy2 x]

/-- An in-range `getD` of a list of bytes is a byte. -/
theorem getD_lt_of_forall (data : List Nat) (i : Nat) (hi : i < data.length)
    (hb : ∀ b ∈ data, b < 256) : data.getD i 0 < 256 := by
  rw [List.getD_eq_getElem _ _ hi]
  exact hb _ (List.getElem_mem hi)

/-- A state whose screen has no active session while storage still holds a
current session, exercising both precondition branches. -/
def mixedApp : AppState :=
  { screen := { currentSession := none, beaconReads := [] }
  , storage := { sessions := [], currentSession := some (newSession 3) } }

/-- A store holding an empty active session. -/
def sessionStore : Storage :=
  { sessions := [], currentSession := some (newSession 5) }

/-- Two distinct accepted reads, in arrival order. -/
def twoReads : List BeaconRead :=
  [fixtureRead, { fixtureRead with id := "read_7", timestamp := 7 }]

/-! ### Claim C1 -/

/-- Claim C1: for every decoded advertisement and criteria pair, the filter
accepts — the observation proceeds to be recorded — iff the advertisement UUID
equals the target UUID under case-insensitive comparison and the signal
strength is at least the rssi threshold; signal strength equal to the
threshold is accepted and one below the threshold is rejected. -/
theorem c1_filter_accepts_iff (settings : Settings) (adv : BeaconAdvertisement) :
    (filterAccepts settings adv = true ↔
      (toLowerCase adv.uuid = toLowerCase settings.targetUuid ∧
        settings.rssiThreshold ≤ adv.rssi)) ∧
    (toLowerCase adv.uuid = toLowerCase settings.targetUuid →
      adv.rssi = settings.rssiThreshold → filterAccepts settings adv = true) ∧
    (adv.rssi = settings.rssiThreshold - 1 → filterAccepts settings adv = false) := by
  unfold filterAccepts
  split_ifs with h1 h2 <;> refine ⟨?_, ?_, ?_⟩ <;> simp_all <;> omega

/-- Claim C1 witness: at concrete criteria, the case-insensitive match with
rssi exactly at the threshold is accepted, one below is rejected. -/
theorem c1_filter_accepts_iff_witness :
    filterAccepts { targetUuid := "AAAA", rssiThreshold := -70 }
      { uuid := "aaaa", major := 1, minor := 2, rssi := -70 } = true ∧
    filterAccepts { targetUuid := "AAAA", rssiThreshold := -70 }
      { uuid := "aaaa", major := 1, minor := 2, rssi := -71 } = false := by
  constructor
  · exact (c1_filter_accepts_iff _ _).2.1 (by decide) (by decide)
  · exact (c1_filter_accepts_iff _ _).2.2 (by decide)

/-! ### Claim C2 -/

/-- Claim C2 counterexample: with nothing stored, `getSettings` does not
return the hyphenated canonical UUID string, and its default target UUID does
not satisfy the canonical 8-4-4-4-12 UUID grammar. -/
theorem c2_default_settings_counterexample :
    (getSettings none).targetUuid ≠ "E101B392-ADA3-2224-2316-05EF58774925" ∧
      isValidUUID (getSettings none).targetUuid = false := by decide

/-- Claim C2 (amended): with nothing stored, `getSettings` returns the default
criteria with rssi threshold `-70` and the un-hyphenated 32-digit target UUID
`E101B392ADA32224231605EF58774925`, which does not satisfy the canonical
hyphenated 8-4-4-4-12 UUID grammar. -/
theorem c2_default_settings_amended :
    getSettings none =
      { targetUuid := "E101B392ADA32224231605EF58774925", rssiThreshold := -70 } ∧
      isValidUUID (getSettings none).targetUuid = false := by decide

/-! ### Claim C3 -/

/-- Claim C3: a manufacturer-data sequence shorter than 25 bytes, or whose
first two bytes are not `4C 00`, or whose next two bytes are not `02 15`, is
not recognized. -/
theorem c3_decoder_rejects (data : List Nat) (rssi : Int)
    (h : data.length < 25 ∨ ¬(data.getD 0 0 = 0x4C ∧ data.getD 1 0 = 0x00) ∨
      ¬(data.getD 2 0 = 0x02 ∧ data.getD 3 0 = 0x15)) :
    parseIBeaconData data rssi = none := by
  unfold parseIBeaconData
  split_ifs with h1 h2 h3
  · rfl
  · rfl
  · rfl
  · push_neg at h2 h3
    rcases h with h | h | h
    · exact absurd h h1
    · exact absurd ⟨h2.1, h2.2⟩ h
    · exact absurd ⟨h3.1, h3.2⟩ h

/-- Claim C3 witness: the empty sequence is shorter than 25 bytes and is not
recognized. -/
theorem c3_decoder_rejects_witness :
    parseIBeaconData [] 0 = none ∧ ([] : List Nat).length < 25 :=
  ⟨c3_decoder_rejects [] 0 (Or.inl (by decide)), by decide⟩

/-! ### Claim C4 -/

/-- Claim C4: every frame of at least 25 bytes beginning `4C 00 02 15` decodes
to the advertisement whose uuid is the canonical hyphenated uppercase
rendering of bytes 4-19 and whose major and minor are the unsigned big-endian
16-bit integers of bytes 20-21 and 22-23, the rssi attached unchanged. -/
theorem c4_decoder_wellformed (data : List Nat) (rssi : Int)
    (hlen : 25 ≤ data.length) (h0 : data.getD 0 0 = 0x4C) (h1 : data.getD 1 0 = 0x00)
    (h2 : data.getD 2 0 = 0x02) (h3 : data.getD 3 0 = 0x15)
    (hbytes : ∀ b ∈ data, b < 256) :
    parseIBeaconData data rssi = some
      { uuid := canonicalUUID ((data.drop 4).take 16)
      , major := 256 * data.getD 20 0 + data.getD 21 0
      , minor := 256 * data.getD 22 0 + data.getD 23 0
      , rssi := rssi } := by
  have h21 : data.getD 21 0 < 256 := getD_lt_of_forall data 21 (by omega) hbytes
  have h23 : data.getD 23 0 < 256 := getD_lt_of_forall data 23 (by omega) hbytes
  unfold parseIBeaconData
  split_ifs with hc1 hc2 hc3
  · omega
  · tauto
  · tauto
  · simp only [bytesToUUID_eq_canonicalUUID, shiftLeft_or_eq_mul_add _ _ h21,
      shiftLeft_or_eq_mul_add _ _ h23]

/-- Claim C4 witness: the specification's fixture frame decodes to the exact
expected UUID string, major 7 and minor 9. -/
theorem c4_decoder_wellformed_witness :
    parseIBeaconData fixtureData (-50) = some
      { uuid := "E101B392-ADA3-2224-2316-05EF58774925", major := 7, minor := 9
      , rssi := -50 } := by
  rw [c4_decoder_wellformed fixtureData (-50) (by decide) (by decide) (by decide)
    (by decide) (by decide) (by decide)]
  decide

/-! ### Claim C5 -/

/-- Claim C5 (code bug): starting a session, recording one accepted read, then
saving under the non-empty name `x` yields exactly one saved session named `x`
with `endTime` present and at least `startTime`, and no current marker — but
its `beaconReads` has length 0 instead of 1: the read was appended only to the
persisted current session (shown to hold one read just before the save), while
`ScanningScreen.saveSession` finalizes the stale React-state copy whose read
list was never updated. -/
theorem c5_saved_session_loses_reads :
    saveRunApp.storage.sessions.map
        (fun s => (s.name, s.startTime, s.endTime, s.beaconReads.length)) =
      [("x", 5, some 9, 0)] ∧
    saveRunApp.storage.currentSession = none ∧
    ((recordRead true fixtureRead (startScanning true 5 freshApp)).storage.currentSession.map
      (fun s => s.beaconReads.length)) = some 1 := by decide

/-! ### Claim C6 -/

/-- Claim C6 counterexample: `startScanning` with a failing persistence call
advances the in-memory state anyway — from no current session to the newly
created one — while the persisted state is unchanged. -/
theorem c6_start_memory_advances_counterexample :
    freshApp.screen.currentSession = none ∧
    (startScanning false 5 freshApp).screen.currentSession = some (newSession 5) ∧
    (startScanning false 5 freshApp).storage = freshApp.storage := by decide

/-- Claim C6 (amended): for `save`, `discard` and `record` the in-memory state
advances only after the persistence calls succeed — a failure leaves the
in-memory state unchanged, and for `record` no in-memory append is visible —
but for `start` the in-memory current session is set before the persistence
call, so a failing call leaves the new session in memory while the persisted
state is unchanged. -/
theorem c6_memory_vs_persistence (app : AppState) (read : BeaconRead)
    (name : String) (now : Nat) :
    ((saveSession false true name now app).2 = app) ∧
    ((saveSession true false name now app).2.screen = app.screen) ∧
    (clearCurrentSession false app = app) ∧
    (app.storage.currentSession.isSome = true → recordRead false read app = app) ∧
    (app.screen.currentSession = none →
      (startScanning false now app).storage = app.storage ∧
      (startScanning false now app).screen.currentSession = some (newSession now)) := by
  refine ⟨?_, ?_, ?_, ?_, ?_⟩
  · by_cases h : trimString name = ""
    · simp [saveSession, h]
    · cases hc : app.screen.currentSession with
      | none => simp [saveSession, h, hc]
      | some cur => simp [saveSession, saveSessionStore, h, hc]
  · by_cases h : trimString name = ""
    · simp [saveSession, h]
    · cases hc : app.screen.currentSession with
      | none => simp [saveSession, h, hc]
      | some cur => simp [saveSession, saveSessionStore, saveCurrentSession, h, hc]
  · rfl
  · intro h
    cases hc : app.storage.currentSession with
    | none => rw [hc] at h; simp at h
    | some s => simp [recordRead, addBeaconReadToCurrentSession, saveCurrentSession, hc]
  · intro h
    unfold startScanning
    rw [h]
    exact ⟨rfl, rfl⟩

/-- Claim C6 amended witness: all five conjuncts at a concrete state holding
a persisted current session but no in-memory one. -/
theorem c6_memory_vs_persistence_witness :
    ((saveSession false true "x" 9 mixedApp).2 = mixedApp) ∧
    ((saveSession true false "x" 9 mixedApp).2.screen = mixedApp.screen) ∧
    (clearCurrentSession false mixedApp = mixedApp) ∧
    (recordRead false fixtureRead mixedApp = mixedApp) ∧
    ((startScanning false 9 mixedApp).storage = mixedApp.storage ∧
      (startScanning false 9 mixedApp).screen.currentSession = some (newSession 9)) := by
  have h := c6_memory_vs_persistence mixedApp fixtureRead "x" 9
  exact ⟨h.1, h.2.1, h.2.2.1, h.2.2.2.1 (by decide), h.2.2.2.2 (by decide)⟩

/-! ### Claim C7 -/

/-- Claim C7: saving with a blank name, or while no session is active, leaves
the whole state — saved collection, current marker and React state — unchanged
and reports the precondition failure rather than silently succeeding. -/
theorem c7_save_precondition_failures (okSave okClear : Bool) (name : String)
    (now : Nat) (app : AppState) :
    (trimString name = "" →
      saveSession okSave okClear name now app = (.emptyNameError, app)) ∧
    (trimString name ≠ "" → app.screen.currentSession = none →
      saveSession okSave okClear name now app = (.noSessionError, app)) := by
  constructor
  · intro h
    simp [saveSession, h]
  · intro h hc
    simp [saveSession, h, hc]

/-- Claim C7 witness: a whitespace-only name and an idle state each fail
without touching the concrete state. -/
theorem c7_save_precondition_failures_witness :
    saveSession true true "   " 9 mixedApp = (.emptyNameError, mixedApp) ∧
    saveSession true true "x" 9 mixedApp = (.noSessionError, mixedApp) :=
  ⟨(c7_save_precondition_failures true true "   " 9 mixedApp).1 (by decide),
   (c7_save_precondition_failures true true "x" 9 mixedApp).2 (by decide) (by decide)⟩

/-! ### Claim C8 -/

/-- Claim C8 counterexample: two concurrent `record` calls interleaved at the
await between the current-session load and the save — both loads before either
store, an interleaving the unguarded read-modify-write permits — leave one
read instead of two: the first write is lost. -/
theorem c8_concurrent_record_counterexample :
    ((recordTwoInterleaved fixtureRead { fixtureRead with id := "read_7", timestamp := 7 }
        sessionStore).currentSession.map
      (fun s => s.beaconReads.map (fun r => r.id))) = some ["read_7"] ∧
    ((recordTwoInterleaved fixtureRead { fixtureRead with id := "read_7", timestamp := 7 }
        sessionStore).currentSession.map (fun s => s.beaconReads.length)) ≠ some 2 := by
  decide

/-- Claim C8 (amended): when the `record` calls are serialized — each
load-append-save runs to completion before the next begins — all K reads of an
active session appear appended in arrival order and none is lost, so the read
sequence grows by exactly K; the code does not enforce this serialization for
concurrent calls. -/
theorem c8_serialized_record_preserves_reads (reads : List BeaconRead)
    (st : Storage) (s : Session) (h : st.currentSession = some s) :
    (recordAllSerialized reads st).currentSession =
      some { s with beaconReads := s.beaconReads ++ reads } ∧
    ((recordAllSerialized reads st).currentSession.map fun t => t.beaconReads.length) =
      some (s.beaconReads.length + reads.length) := by
  have main : ∀ (reads : List BeaconRead) (st : Storage) (s : Session),
      st.currentSession = some s →
      (recordAllSerialized reads st).currentSession =
        some { s with beaconReads := s.beaconReads ++ reads } := by
    intro reads
    induction reads with
    | nil =>
      intro st s h
      simpa [recordAllSerialized] using h
    | cons r rs ih =>
      intro st s h
      have step : (recordSerialized r st).currentSession =
          some { s with beaconReads := s.beaconReads ++ [r] } := by
        simp [recordSerialized, beaconReadLoad, beaconReadStore, h]
      have := ih (recordSerialized r st) _ step
      simpa [recordAllSerialized, List.append_assoc] using this
  refine ⟨main reads st s h, ?_⟩
  rw [main reads st s h]
  simp

/-- Claim C8 amended witness: two serialized record calls on an empty active
session leave exactly those two reads, in arrival order. -/
theorem c8_serialized_record_preserves_reads_witness :
    (recordAllSerialized twoReads sessionStore).currentSession =
      some { newSession 5 with beaconReads := (newSession 5).beaconReads ++ twoReads } ∧
    ((recordAllSerialized twoReads sessionStore).currentSession.map
      fun t => t.beaconReads.length) =
      some ((newSession 5).beaconReads.length + twoReads.length) :=
  c8_serialized_record_preserves_reads twoReads sessionStore (newSession 5) rfl

/-! ### Claim C9 -/

/-- Claim C9: the decoder is total and effect-free — for every byte sequence
and signal-strength value it returns either an advertisement with the rssi
attached unchanged or the explicit not-recognized result, and the
not-recognized result occurs exactly on the malformed inputs; as a pure
function of its arguments it is deterministic and touches no state. -/
theorem c9_decoder_total (data : List Nat) (rssi : Int) :
    ((∃ adv, parseIBeaconData data rssi = some adv ∧ adv.rssi = rssi) ∨
      parseIBeaconData data rssi = none) ∧
    (parseIBeaconData data rssi = none ↔
      (data.length < 25 ∨ data.getD 0 0 ≠ 0x4C ∨ data.getD 1 0 ≠ 0x00 ∨
        data.getD 2 0 ≠ 0x02 ∨ data.getD 3 0 ≠ 0x15)) := by
  unfold parseIBeaconData
  split_ifs with h1 h2 h3 <;> simp_all
  tauto

/-! ### Claim C10 -/

/-- Claim C10: a `record` issued while no current session exists completes
without error and leaves the persisted state entirely unchanged — the read is
silently dropped and no session is created. -/
theorem c10_record_idle_noop (ok : Bool) (read : BeaconRead) (st : Storage)
    (h : st.currentSession = none) :
    addBeaconReadToCurrentSession ok read st = .ok st := by
  simp [addBeaconReadToCurrentSession, h]

/-- Claim C10 witness: on an empty store the no-session record is a no-op,
even when the underlying storage call would fail. -/
theorem c10_record_idle_noop_witness :
    addBeaconReadToCurrentSession false fixtureRead
        { sessions := [], currentSession := none } =
      .ok { sessions := [], currentSession := none } :=
  c10_record_idle_noop false fixtureRead _ rfl

end BleBeacon
